import Mathlib

/-
Verification of the subtitle-extraction engine of extract_subtitles.py.

The source is shallowly embedded: the path helpers mirror the posixpath
functions the source calls (os.path.basename, os.path.dirname,
os.path.splitext, os.path.join), the core class SubtitleExtractor becomes a
state record plus pure state-transition functions, and the external world
(filesystem, ffprobe, ffmpeg) is an explicit environment argument.  Side
effects (directory creation, subprocess launches, log messages, progress
callbacks) are recorded in an event trace so that ordering and frame
properties can be stated.
-/

namespace SubtitleTool

/-- Lowercase a string character-by-character, modelling str.lower() on the
ASCII file names the source deals with. -/
def strLower (s : String) : String := String.mk (s.data.map Char.toLower)

/-- Python str.startswith. -/
def pyStartsWith (s pre : String) : Bool := pre.data.isPrefixOf s.data

/-- Python str.endswith. -/
def pyEndsWith (s suf : String) : Bool := suf.data.isSuffixOf s.data

/-- Index of the last occurrence of a character, -1 when absent, modelling
Python str.rfind. -/
def rfindIdx (c : Char) (l : List Char) : Int :=
  match l.reverse.findIdx? (fun x => x == c) with
  | none => -1
  | some j => (l.length : Int) - 1 - (j : Int)

/-- os.path.basename: the part after the last slash. -/
def basenameAux : List Char → List Char → List Char
  | acc, [] => acc
  | acc, c :: rest =>
      if c = '/' then basenameAux [] rest else basenameAux (acc ++ [c]) rest

/-- os.path.basename for POSIX paths. -/
def basename (p : String) : String := String.mk (basenameAux [] p.data)

/-- os.path.dirname for POSIX paths: everything up to the last slash, with
trailing slashes stripped unless the head is all slashes. -/
def dirname (p : String) : String :=
  let l := p.data
  let i := (rfindIdx '/' l + 1).toNat
  let head := l.take i
  if head.isEmpty || head.all (fun c => c == '/') then String.mk head
  else String.mk ((head.reverse.dropWhile (fun c => c == '/')).reverse)

/-- os.path.splitext: split off the last dot-extension, unless the only dots
are leading dots of the final path component. -/
def splitext (p : String) : String × String :=
  let l := p.data
  let sepIndex := rfindIdx '/' l
  let dotIndex := rfindIdx '.' l
  if dotIndex > sepIndex then
    let filenameIndex := (sepIndex + 1).toNat
    let between := (l.drop filenameIndex).take (dotIndex.toNat - filenameIndex)
    if between.any (fun c => c != '.') then
      (String.mk (l.take dotIndex.toNat), String.mk (l.drop dotIndex.toNat))
    else (p, "")
  else (p, "")

/-- os.path.join restricted to two components, as the source uses it. -/
def joinPath (a b : String) : String :=
  if pyStartsWith b "/" then b
  else if a == "" || pyEndsWith a "/" then a ++ b
  else a ++ "/" ++ b

/-- One row of the SUBTITLE_FORMATS table (source lines 27-48). -/
structure FormatInfo where
  extension : String
  ffmpeg_format : String
  description : String
deriving DecidableEq, Repr

/-- The SUBTITLE_FORMATS output-format table of the source. -/
def SUBTITLE_FORMATS : List (String × FormatInfo) :=
  [("SRT", ⟨"srt", "srt", "SubRip Text"⟩),
   ("VobSub", ⟨"idx", "dvdsub", "DVD Subtitles"⟩),
   ("ASS", ⟨"ass", "ass", "Advanced SubStation Alpha"⟩),
   ("WebVTT", ⟨"vtt", "webvtt", "Web Video Text Tracks"⟩)]

/-- Dictionary lookup in the format table (the membership test and indexing
at source lines 177-182). -/
def lookupFormat (name : String) : Option FormatInfo :=
  (SUBTITLE_FORMATS.find? (fun kv => kv.1 == name)).map (fun kv => kv.2)

/-- A raw stream entry as decoded from the JSON the probing tool prints:
every field may be absent, mirroring dict.get. -/
structure RawStream where
  index : Option Int
  codec_name : Option String
  language : Option String
  title : Option String
deriving DecidableEq, Repr

/-- The stream_info dictionary built at source lines 128-133. -/
structure StreamInfo where
  index : Option Int
  codec_name : String
  language : String
  title : String
deriving DecidableEq, Repr

/-- Defaulting of missing JSON fields (source lines 128-133): missing codec
becomes unknown, missing language becomes und, missing title becomes empty. -/
def parseStream (s : RawStream) : StreamInfo :=
  ⟨s.index, s.codec_name.getD "unknown", s.language.getD "und", s.title.getD ""⟩

/-- Result of one ffprobe invocation, as observed by get_subtitle_streams:
either parsed JSON stream entries, or one of the two caught exception kinds
(source lines 138-143). -/
inductive ProbeResult where
  | ok (streams : List RawStream)
  | subprocessError
  | jsonError
deriving DecidableEq, Repr

/-- Behaviour of one spawned ffmpeg process, as observed by the stderr loop
of extract_subtitle (source lines 215-262): the cancellation flag observed
while streaming stderr, a spawn or stream exception, or a normal exit with a
return code and the two stderr substrings the source greps for. -/
inductive FfmpegOutcome where
  | cancelled
  | spawnError
  | finished (returnCode : Int) (hasUnknownEncoder : Bool) (hasOutputExists : Bool)
deriving DecidableEq, Repr

/-- Observable events of a run: directory creation, subprocess launches,
process termination, log messages, and the two progress callbacks. -/
inductive Ev where
  | makedirs (dir : String)
  | ffprobeRun (file : String)
  | ffmpegRun (cmd : List String)
  | terminate
  | logMsg (msg : String)
  | scanProgress (found : Nat) (totalFiles : Nat)
  | extractProgress (processed : Nat) (total : Nat)
deriving DecidableEq, Repr

/-- The mutable fields of class SubtitleExtractor (source lines 53-60). -/
structure ExtractorState where
  cancel_flag : Bool
  total_streams : Nat
  processed_streams : Nat
  successful_extractions : Nat
  failed_extractions : Nat
  skipped_extractions : Nat
deriving DecidableEq, Repr

/-- The freshly constructed extractor state (source lines 53-60). -/
def initState : ExtractorState := ⟨false, 0, 0, 0, 0, 0⟩

/-- SubtitleExtractor.reset (source lines 264-271): every field back to its
zero value, including the cancellation flag. -/
def reset (_st : ExtractorState) : ExtractorState := initState

/-- SubtitleExtractor.cancel (source lines 273-276): sets the cancellation
flag, touching nothing else. -/
def cancel (st : ExtractorState) : ExtractorState := { st with cancel_flag := true }

/-- Python string interpolation of the possibly absent stream index. -/
def pyShowOptInt : Option Int → String
  | some i => toString i
  | none => "None"

/-- Environment of a single extract_subtitle call: the filesystem existence
check and the behaviour of the one ffmpeg process it may spawn. -/
structure ExtractEnv where
  fileExists : String → Bool
  ffmpeg : FfmpegOutcome

/-- The output file path computed at source lines 169-171 and 187:
join(output_dir or dirname(video), basename-without-extension.language.ext). -/
def output_file_for (video_file language extension : String)
    (output_dir : Option String) : String :=
  joinPath (output_dir.getD (dirname video_file))
    ((splitext (basename video_file)).1 ++ "." ++ language ++ "." ++ extension)

/-- SubtitleExtractor.extract_subtitle (source lines 145-262).  Returns the
boolean result, the updated counters, and the ordered event trace.  The
makedirs call (line 174) precedes the format check (line 177) and the
existence check (line 190).  In the cancelled branch the post-state records
the flag as set, since observing it mid-stream entails it was set. -/
def extract_subtitle (env : ExtractEnv) (st : ExtractorState)
    (video_file : String) (stream_index : Option Int) (language : String)
    (output_format : String) (output_dir : Option String) (overwrite : Bool) :
    Bool × ExtractorState × List Ev :=
  let video_basename := (splitext (basename video_file)).1
  let outDir := output_dir.getD (dirname video_file)
  let eff0 : List Ev := [Ev.makedirs outDir]
  match lookupFormat output_format with
  | none =>
      (false,
       { st with failed_extractions := st.failed_extractions + 1 },
       eff0 ++ [Ev.logMsg ("ERROR: Unsupported format " ++ output_format)])
  | some format_info =>
      let ffmpeg_format := format_info.ffmpeg_format
      let output_file := output_file_for video_file language format_info.extension output_dir
      if env.fileExists output_file && !overwrite then
        (false,
         { st with skipped_extractions := st.skipped_extractions + 1 },
         eff0 ++ [Ev.logMsg ("SKIPPED: Subtitle file already exists for " ++
                             video_basename ++ " [" ++ language ++ "]")])
      else
        let cmd : List String :=
          ["ffmpeg", "-loglevel", "warning", if overwrite then "-y" else "-n",
           "-i", video_file, "-map", "0:" ++ pyShowOptInt stream_index,
           "-c:s", ffmpeg_format, output_file]
        match env.ffmpeg with
        | FfmpegOutcome.cancelled =>
            (false,
             { st with cancel_flag := true },
             eff0 ++ [Ev.ffmpegRun cmd, Ev.terminate,
                      Ev.logMsg ("CANCELLED: Extraction cancelled for " ++
                                 video_basename ++ " [" ++ language ++ "]")])
        | FfmpegOutcome.spawnError =>
            (false,
             { st with failed_extractions := st.failed_extractions + 1 },
             eff0 ++ [Ev.ffmpegRun cmd,
                      Ev.logMsg ("ERROR: Failed to run ffmpeg for " ++
                                 video_basename ++ " [" ++ language ++ "]")])
        | FfmpegOutcome.finished returnCode hasUnknownEncoder hasOutputExists =>
            if returnCode != 0 then
              if hasUnknownEncoder then
                (false,
                 { st with failed_extractions := st.failed_extractions + 1 },
                 eff0 ++ [Ev.ffmpegRun cmd,
                          Ev.logMsg ("ERROR: Format mismatch or unsupported format for " ++
                                     video_basename ++ " [" ++ language ++ "]")])
              else if hasOutputExists then
                (false,
                 { st with skipped_extractions := st.skipped_extractions + 1,
                           failed_extractions := st.failed_extractions + 1 },
                 eff0 ++ [Ev.ffmpegRun cmd,
                          Ev.logMsg ("SKIPPED: Subtitle file already exists for " ++
                                     video_basename ++ " [" ++ language ++ "]")])
              else
                (false,
                 { st with failed_extractions := st.failed_extractions + 1 },
                 eff0 ++ [Ev.ffmpegRun cmd,
                          Ev.logMsg ("ERROR: Failed to extract subtitle from " ++
                                     video_basename ++ " [" ++ language ++ "]")])
            else
              (true,
               { st with successful_extractions := st.successful_extractions + 1 },
               eff0 ++ [Ev.ffmpegRun cmd,
                        Ev.logMsg ("SUCCESS: Extracted " ++ output_format ++
                                   " subtitle for " ++ video_basename ++
                                   " [" ++ language ++ "]")])

/-- SubtitleExtractor.get_subtitle_streams (source lines 101-143): one
ffprobe launch; on either caught exception it logs an error message and
contributes the empty stream list. -/
def get_subtitle_streams (probe : String → ProbeResult) (video_file : String) :
    List StreamInfo × List Ev :=
  match probe video_file with
  | ProbeResult.ok raw => (raw.map parseStream, [Ev.ffprobeRun video_file])
  | ProbeResult.subprocessError =>
      ([], [Ev.ffprobeRun video_file,
            Ev.logMsg ("ERROR: Failed to get subtitle streams from " ++ basename video_file)])
  | ProbeResult.jsonError =>
      ([], [Ev.ffprobeRun video_file,
            Ev.logMsg ("ERROR: Failed to parse ffprobe output for " ++ basename video_file)])

/-- The video file extension whitelist (source line 91). -/
def video_extensions : List String :=
  [".mkv", ".mp4", ".avi", ".mov", ".wmv", ".flv", ".webm"]

/-- file.lower().endswith(video_extensions) (source line 96). -/
def isVideoFile (file : String) : Bool :=
  video_extensions.any (fun ext => pyEndsWith (strLower file) ext)

/-- SubtitleExtractor.get_video_files (source lines 89-99): os.walk is
abstracted as a map from a directory to its (root, files) entries; every
file matching a video extension is joined onto its root, in walk order. -/
def get_video_files (walk : String → List (String × List String))
    (directory : String) : List String :=
  ((walk directory).map
    (fun rf => (rf.2.filter isVideoFile).map (fun f => joinPath rf.1 f))).flatten

/-- An extraction task: one matching stream of one file (the dictionaries
built at source lines 786-790). -/
structure ExtractionTask where
  video_file : String
  stream : StreamInfo
deriving DecidableEq, Repr

/-- Environment of a whole run: the directory walker, the probe behaviour per
file, and the filesystem and ffmpeg behaviour per extraction call (indexed by
the call number, since earlier extractions may create files). -/
structure RunEnv where
  walk : String → List (String × List String)
  probe : String → ProbeResult
  fileExists : Nat → String → Bool
  ffmpeg : Nat → FfmpegOutcome

/-- The scan loop of run_extraction (source lines 780-799): per file, check
the cancellation flag, probe, keep the streams whose language tag equals the
requested one, and emit a scan-progress callback whose first argument is the
accumulated match count and whose second argument is the full video file
count (len(video_files) at source line 797).  The loop never mutates the
extractor state. -/
def scanLoop (env : RunEnv) (language : String) (numFiles : Nat)
    (st : ExtractorState) :
    List String → List ExtractionTask → List Ev →
    ExtractorState × List ExtractionTask × List Ev
  | [], tasks, evs => (st, tasks, evs)
  | video_file :: rest, tasks, evs =>
      if st.cancel_flag then (st, tasks, evs)
      else
        let pr := get_subtitle_streams env.probe video_file
        let matching := (pr.1.filter (fun s => s.language == language)).map
          (fun s => ExtractionTask.mk video_file s)
        let tasks2 := tasks ++ matching
        scanLoop env language numFiles st rest tasks2
          (evs ++ pr.2 ++ [Ev.scanProgress tasks2.length numFiles])

/-- The extraction loop of run_extraction (source lines 812-835): per task,
check the cancellation flag, call extract_subtitle, increment
processed_streams, and emit an extraction-progress callback. -/
def extractLoop (env : RunEnv) (language output_format : String)
    (output_dir : Option String) (overwrite : Bool) :
    ExtractorState → List ExtractionTask → Nat → List Ev →
    ExtractorState × List Ev
  | st, [], _, evs => (st, evs)
  | st, t :: rest, k, evs =>
      if st.cancel_flag then (st, evs)
      else
        let r := extract_subtitle ⟨env.fileExists k, env.ffmpeg k⟩ st
                   t.video_file t.stream.index language output_format output_dir overwrite
        let st2 := { r.2.1 with processed_streams := r.2.1.processed_streams + 1 }
        extractLoop env language output_format output_dir overwrite st2 rest (k + 1)
          (evs ++ r.2.2 ++ [Ev.extractProgress st2.processed_streams st2.total_streams])

/-- Final state and full event trace of a run. -/
structure RunResult where
  state : ExtractorState
  events : List Ev
deriving DecidableEq, Repr

/-- SubtitleExtractorGUI.run_extraction (source lines 764-846): enumerate the
video files of every requested directory by concatenation, scan, record the
total, and extract; early returns when no files or no matching streams are
found. -/
def run_extraction (env : RunEnv) (directories : List String)
    (language output_format : String) (output_dir : Option String)
    (overwrite : Bool) (st : ExtractorState) : RunResult :=
  let video_files := (directories.map (fun d => get_video_files env.walk d)).flatten
  if video_files.isEmpty then
    ⟨st, [Ev.logMsg "No video files found in the selected directories."]⟩
  else
    let evs0 : List Ev := [Ev.logMsg ("Found " ++ toString video_files.length ++ " video files.")]
    let scanned := scanLoop env language video_files.length st video_files [] evs0
    let st2 := { scanned.1 with total_streams := scanned.2.1.length }
    if scanned.2.1.isEmpty then
      ⟨st2, scanned.2.2 ++
        [Ev.logMsg ("No subtitle streams found matching language " ++ language ++ ".")]⟩
    else
      let evs1 := scanned.2.2 ++
        [Ev.logMsg ("Found " ++ toString scanned.2.1.length ++
                    " subtitle streams matching language " ++ language ++ ".")]
      let st3 := { st2 with processed_streams := 0 }
      let done := extractLoop env language output_format output_dir overwrite st3 scanned.2.1 0 evs1
      ⟨done.1, done.2 ++
        [Ev.logMsg (if done.1.cancel_flag then "Extraction cancelled by user."
                    else "Extraction process completed.")]⟩

/-- Discriminator for ffprobe-launch events. -/
def isProbeEv : Ev → Bool
  | Ev.ffprobeRun _ => true
  | _ => false

/-- Discriminator for ffmpeg-launch events. -/
def isFfmpegEv : Ev → Bool
  | Ev.ffmpegRun _ => true
  | _ => false

/-- Number of ffprobe subprocesses launched in a trace. -/
def countProbes (evs : List Ev) : Nat := evs.countP isProbeEv

/-- Number of ffmpeg subprocesses launched in a trace. -/
def countFfmpegRuns (evs : List Ev) : Nat := evs.countP isFfmpegEv

/-- Trace of scan-phase events in which, after each probed file, the
scan-progress callback carries the cumulative number of matching tasks as its
first argument and the fixed total number of enumerated files as its second
argument. -/
def scanTraceSpec (probe : String → ProbeResult) (language : String)
    (numFiles : Nat) (found0 : Nat) : List String → List Ev
  | [] => []
  | f :: rest =>
      let pr := get_subtitle_streams probe f
      let m := (pr.1.filter (fun s => s.language == language)).length
      pr.2 ++ [Ev.scanProgress (found0 + m) numFiles] ++
        scanTraceSpec probe language numFiles (found0 + m) rest

/-- Run environment: one directory holding one video file with one matching
English stream; the ffmpeg process exits nonzero with an Output-file-exists
diagnostic. -/
def envC1 : RunEnv :=
  { walk := fun d => if d == "d" then [("d", ["a.mkv"])] else []
    probe := fun f =>
      if f == "d/a.mkv" then ProbeResult.ok [⟨some 2, some "subrip", some "eng", some ""⟩]
      else ProbeResult.jsonError
    fileExists := fun _ _ => false
    ffmpeg := fun _ => FfmpegOutcome.finished 1 false true }

/-- Run environment: one directory holding one video file with one matching
English stream; ffmpeg behaviour is irrelevant since the requested format is
unknown. -/
def envC2 : RunEnv :=
  { walk := fun d => if d == "d" then [("d", ["a.mkv"])] else []
    probe := fun f =>
      if f == "d/a.mkv" then ProbeResult.ok [⟨some 2, some "subrip", some "eng", some ""⟩]
      else ProbeResult.jsonError
    fileExists := fun _ _ => false
    ffmpeg := fun _ => FfmpegOutcome.finished 0 false false }

/-- Extraction environment in which the cancellation flag is observed while
streaming the ffmpeg diagnostic output. -/
def envC3 : ExtractEnv := ⟨fun _ => false, FfmpegOutcome.cancelled⟩

/-- Run environment: the requested directories are a root and its
subdirectory; the recursive walk of the root yields the same file the walk of
the subdirectory yields. -/
def envC4 : RunEnv :=
  { walk := fun d =>
      if d == "d" then [("d", []), ("d/sub", ["a.mkv"])]
      else if d == "d/sub" then [("d/sub", ["a.mkv"])]
      else []
    probe := fun _ => ProbeResult.ok []
    fileExists := fun _ _ => false
    ffmpeg := fun _ => FfmpegOutcome.finished 0 false false }

/-- Run environment: one directory with two video files, only the first of
which has a matching English stream. -/
def envC5 : RunEnv :=
  { walk := fun d => if d == "d" then [("d", ["a.mkv", "b.mkv"])] else []
    probe := fun f =>
      if f == "d/a.mkv" then ProbeResult.ok [⟨some 2, some "subrip", some "eng", some ""⟩]
      else ProbeResult.ok []
    fileExists := fun _ _ => false
    ffmpeg := fun _ => FfmpegOutcome.finished 0 false false }

/-- Extraction environment in which the computed English SRT output path for
videos slash Movie.mkv already exists on disk. -/
def envC6 : ExtractEnv := ⟨fun s => s == "/videos/Movie.eng.srt", FfmpegOutcome.finished 0 false false⟩

/-- Run environment whose probe of the single video file raises the JSON
parse error. -/
def envC7 : RunEnv :=
  { walk := fun d => if d == "d" then [("d", ["a.mkv", "b.mkv"])] else []
    probe := fun f => if f == "d/a.mkv" then ProbeResult.jsonError else ProbeResult.ok []
    fileExists := fun _ _ => false
    ffmpeg := fun _ => FfmpegOutcome.finished 0 false false }

/-- Extraction environment for the frame-effect witness: empty filesystem,
successful ffmpeg. -/
def envC9 : ExtractEnv := ⟨fun _ => false, FfmpegOutcome.finished 0 false false⟩

/-- Run environment for the stale-cancellation witness: one directory with
one file carrying a matching stream, so that work would happen were the flag
clear. -/
def envC10 : RunEnv :=
  { walk := fun d => if d == "d" then [("d", ["a.mkv"])] else []
    probe := fun f =>
      if f == "d/a.mkv" then ProbeResult.ok [⟨some 2, some "subrip", some "eng", some ""⟩]
      else ProbeResult.jsonError
    fileExists := fun _ _ => false
    ffmpeg := fun _ => FfmpegOutcome.finished 0 false false }

/-- Splitting a count of probe launches over a concatenated trace. -/
theorem countProbes_append (a b : List Ev) :
    countProbes (a ++ b) = countProbes a + countProbes b := by
  simp [countProbes, List.countP_append]

/-- Splitting a count of ffmpeg launches over a concatenated trace. -/
theorem countFfmpegRuns_append (a b : List Ev) :
    countFfmpegRuns (a ++ b) = countFfmpegRuns a + countFfmpegRuns b := by
  simp [countFfmpegRuns, List.countP_append]

/-- Every probe, successful or failed, launches exactly one ffprobe process. -/
theorem probe_events_one_launch (probe : String → ProbeResult) (f : String) :
    countProbes (get_subtitle_streams probe f).2 = 1 := by
  cases hp : probe f <;>
    simp [get_subtitle_streams, hp, countProbes, List.countP_cons, isProbeEv]

/-- extract_subtitle never launches an ffprobe process. -/
theorem extract_probe_count_zero (env : ExtractEnv) (st : ExtractorState)
    (v : String) (si : Option Int) (lang fmt : String) (od : Option String) (ow : Bool) :
    countProbes (extract_subtitle env st v si lang fmt od ow).2.2 = 0 := by
  unfold extract_subtitle
  repeat' split
  all_goals try simp [countProbes, List.countP_cons, isProbeEv]
  all_goals (split_ifs <;> simp [countProbes, List.countP_cons, isProbeEv])

/-- With the cancellation flag set, the scan loop returns at its very first
checkpoint, touching nothing. -/
theorem scanLoop_cancelled (env : RunEnv) (lang : String) (n : Nat)
    (st : ExtractorState) (hflag : st.cancel_flag = true) :
    ∀ (files : List String) (tasks : List ExtractionTask) (evs : List Ev),
      scanLoop env lang n st files tasks evs = (st, tasks, evs) := by
  intro files tasks evs
  cases files <;> simp [scanLoop, hflag]

/-- With the cancellation flag clear, the scan loop launches exactly one
ffprobe process per file of its work list. -/
theorem scanLoop_probe_count (env : RunEnv) (lang : String) (n : Nat)
    (st : ExtractorState) (hflag : st.cancel_flag = false) :
    ∀ (files : List String) (tasks : List ExtractionTask) (evs : List Ev),
      countProbes (scanLoop env lang n st files tasks evs).2.2 =
        countProbes evs + files.length := by
  intro files
  induction files with
  | nil => intro tasks evs; simp [scanLoop]
  | cons f rest ih =>
      intro tasks evs
      rw [scanLoop, if_neg (by simp [hflag])]
      rw [ih]
      rw [countProbes_append, countProbes_append, probe_events_one_launch]
      simp [countProbes, List.countP_cons, isProbeEv]
      omega

/-- The extraction loop launches no ffprobe process. -/
theorem extractLoop_probe_count (env : RunEnv) (lang fmt : String)
    (od : Option String) (ow : Bool) :
    ∀ (tasks : List ExtractionTask) (st : ExtractorState) (k : Nat) (evs : List Ev),
      countProbes (extractLoop env lang fmt od ow st tasks k evs).2 = countProbes evs := by
  intro tasks
  induction tasks with
  | nil => intro st k evs; simp [extractLoop]
  | cons t rest ih =>
      intro st k evs
      rw [extractLoop]
      split
      · rfl
      · rw [ih]
        rw [countProbes_append, countProbes_append, extract_probe_count_zero]
        simp [countProbes, List.countP_cons, isProbeEv]

/-- C1 claim: at every progress callback the outcome counters should satisfy
successCount + failureCount + skippedCount = processedStreams, each completed
task incrementing exactly one outcome counter.  The code violates this: when
ffmpeg exits nonzero with an Output-file-exists diagnostic, the task
increments both skipped_extractions and failed_extractions, so after one
processed task the three counters sum to 2 while processed_streams is 1,
and the extraction-progress callback fires in that state. -/
theorem C1_counter_sum_violated :
    (run_extraction envC1 ["d"] "eng" "SRT" none false initState).state.processed_streams = 1 ∧
    (run_extraction envC1 ["d"] "eng" "SRT" none false initState).state.successful_extractions +
      (run_extraction envC1 ["d"] "eng" "SRT" none false initState).state.failed_extractions +
      (run_extraction envC1 ["d"] "eng" "SRT" none false initState).state.skipped_extractions = 2 ∧
    Ev.extractProgress 1 1 ∈ (run_extraction envC1 ["d"] "eng" "SRT" none false initState).events := by
  decide

/-- C2 counterexample: with an unknown requested format the run does not fail
before work starts: an ffprobe subprocess is launched during scanning, and
the unknown format is recorded as a per-task failure, leaving
failed_extractions at 1 rather than all counters at zero. -/
theorem C2_unknown_format_run_proceeds_cex :
    countProbes (run_extraction envC2 ["d"] "eng" "FOO" none false initState).events = 1 ∧
    (run_extraction envC2 ["d"] "eng" "FOO" none false initState).state.failed_extractions = 1 := by
  decide

/-- C2 amended: a format name outside the output format table is handled
per extraction task, not as a structural run failure: the call logs an
error, increments failed_extractions by one, leaves the other counters and
the flag untouched, launches no conversion subprocess, and still performs
the makedirs side effect. -/
theorem C2_unknown_format_per_task (env : ExtractEnv) (st : ExtractorState)
    (video_file : String) (stream_index : Option Int)
    (language output_format : String) (output_dir : Option String) (overwrite : Bool)
    (hfmt : lookupFormat output_format = none) :
    extract_subtitle env st video_file stream_index language output_format output_dir overwrite =
      (false,
       { st with failed_extractions := st.failed_extractions + 1 },
       [Ev.makedirs (output_dir.getD (dirname video_file)),
        Ev.logMsg ("ERROR: Unsupported format " ++ output_format)]) := by
  simp [extract_subtitle, hfmt]

/-- Witness for the amended C2 theorem at a concrete unknown format. -/
theorem C2_unknown_format_per_task_witness :
    extract_subtitle envC9 initState "d/a.mkv" (some 2) "eng" "FOO" none false =
      (false,
       { initState with failed_extractions := initState.failed_extractions + 1 },
       [Ev.makedirs ((none : Option String).getD (dirname "d/a.mkv")),
        Ev.logMsg ("ERROR: Unsupported format " ++ "FOO")]) :=
  C2_unknown_format_per_task envC9 initState "d/a.mkv" (some 2) "eng" "FOO" none false (by decide)

/-- C3 counterexample: when the cancellation flag is observed mid-stream the
call does terminate the subprocess and return a failure, but it does not
increment failureCount: failed_extractions stays 0. -/
theorem C3_cancel_no_failure_count_cex :
    (extract_subtitle envC3 initState "d/a.mkv" (some 2) "eng" "SRT" none false).1 = false ∧
    Ev.terminate ∈ (extract_subtitle envC3 initState "d/a.mkv" (some 2) "eng" "SRT" none false).2.2 ∧
    (extract_subtitle envC3 initState "d/a.mkv" (some 2) "eng" "SRT" none false).2.1.failed_extractions = 0 := by
  decide

/-- C3 amended: when the cancellation flag is observed while streaming the
diagnostic output, the subprocess is terminated and the call returns a
failure result, but no outcome counter is incremented: success, failure and
skip counts are all unchanged. -/
theorem C3_cancel_terminates_without_counter (env : ExtractEnv) (st : ExtractorState)
    (video_file : String) (stream_index : Option Int)
    (language output_format : String) (output_dir : Option String) (overwrite : Bool)
    (fi : FormatInfo)
    (hfmt : lookupFormat output_format = some fi)
    (hns : (env.fileExists (output_file_for video_file language fi.extension output_dir) &&
            !overwrite) = false)
    (hc : env.ffmpeg = FfmpegOutcome.cancelled) :
    (extract_subtitle env st video_file stream_index language output_format output_dir overwrite).1 = false ∧
    Ev.terminate ∈ (extract_subtitle env st video_file stream_index language output_format output_dir overwrite).2.2 ∧
    (extract_subtitle env st video_file stream_index language output_format output_dir overwrite).2.1.successful_extractions = st.successful_extractions ∧
    (extract_subtitle env st video_file stream_index language output_format output_dir overwrite).2.1.failed_extractions = st.failed_extractions ∧
    (extract_subtitle env st video_file stream_index language output_format output_dir overwrite).2.1.skipped_extractions = st.skipped_extractions := by
  simp [extract_subtitle, hfmt, hns, hc]

/-- Witness for the amended C3 theorem at a concrete cancelled extraction. -/
theorem C3_cancel_terminates_without_counter_witness :
    (extract_subtitle envC3 initState "v/m.mkv" (some 3) "eng" "ASS" none true).1 = false ∧
    Ev.terminate ∈ (extract_subtitle envC3 initState "v/m.mkv" (some 3) "eng" "ASS" none true).2.2 ∧
    (extract_subtitle envC3 initState "v/m.mkv" (some 3) "eng" "ASS" none true).2.1.successful_extractions = initState.successful_extractions ∧
    (extract_subtitle envC3 initState "v/m.mkv" (some 3) "eng" "ASS" none true).2.1.failed_extractions = initState.failed_extractions ∧
    (extract_subtitle envC3 initState "v/m.mkv" (some 3) "eng" "ASS" none true).2.1.skipped_extractions = initState.skipped_extractions :=
  C3_cancel_terminates_without_counter envC3 initState "v/m.mkv" (some 3) "eng" "ASS" none true
    ⟨"ass", "ass", "Advanced SubStation Alpha"⟩ (by decide) (by decide) rfl

/-- C4 counterexample: two requested directories whose walks yield the same
file path produce a work list holding that path twice, and the scan probes
it twice, not once. -/
theorem C4_duplicate_probed_twice_cex :
    ((["d", "d/sub"].map (fun dir => get_video_files envC4.walk dir)).flatten =
      ["d/sub/a.mkv", "d/sub/a.mkv"]) ∧
    countProbes (run_extraction envC4 ["d", "d/sub"] "eng" "SRT" none false initState).events = 2 := by
  decide

/-- C4 amended: the enumeration phase concatenates the per-directory file
lists without de-duplication, and every occurrence in the work list is
probed: a run whose initial flag is clear launches exactly one ffprobe per
entry of the concatenated list, duplicates included. -/
theorem C4_no_dedup_probe_per_occurrence (env : RunEnv) (directories : List String)
    (language output_format : String) (output_dir : Option String) (overwrite : Bool)
    (st : ExtractorState) (hflag : st.cancel_flag = false) :
    countProbes (run_extraction env directories language output_format output_dir overwrite st).events =
      ((directories.map (fun d => get_video_files env.walk d)).flatten).length := by
  simp only [run_extraction]
  split
  · rename_i h
    rw [List.isEmpty_iff] at h
    simp [h, countProbes, List.countP_cons, isProbeEv]
  · dsimp only
    split
    · rw [countProbes_append, scanLoop_probe_count env _ _ st hflag]
      simp [countProbes, List.countP_cons, isProbeEv]
    · rw [countProbes_append, extractLoop_probe_count, countProbes_append,
          scanLoop_probe_count env _ _ st hflag]
      simp [countProbes, List.countP_cons, isProbeEv]

/-- Witness for the amended C4 theorem on the duplicate-directories run. -/
theorem C4_no_dedup_probe_per_occurrence_witness :
    countProbes (run_extraction envC4 ["d", "d/sub"] "eng" "SRT" none false initState).events =
      ((["d", "d/sub"].map (fun d => get_video_files envC4.walk d)).flatten).length :=
  C4_no_dedup_probe_per_occurrence envC4 ["d", "d/sub"] "eng" "SRT" none false initState rfl

/-- C5 counterexample: with two enumerated files, the scan-progress callback
emitted after the first file, when exactly one file has been probed, carries
2 as its second argument: the total file count, not the number seen so far. -/
theorem C5_scan_progress_second_arg_cex :
    (run_extraction envC5 ["d"] "eng" "SRT" none false initState).events.take 3 =
      [Ev.logMsg "Found 2 video files.",
       Ev.ffprobeRun "d/a.mkv",
       Ev.scanProgress 1 2] := by
  decide

/-- C5 amended: after each probed file the engine emits a scan-progress
callback whose first argument is the cumulative number of matching tasks
found so far and whose second argument is the fixed total number of
enumerated video files, as described by scanTraceSpec. -/
theorem C5_scan_progress_found_and_total (env : RunEnv) (language : String)
    (numFiles : Nat) (st : ExtractorState) (hflag : st.cancel_flag = false) :
    ∀ (files : List String) (tasks : List ExtractionTask) (evs : List Ev),
      (scanLoop env language numFiles st files tasks evs).2.2 =
        evs ++ scanTraceSpec env.probe language numFiles tasks.length files := by
  intro files
  induction files with
  | nil => intro tasks evs; simp [scanLoop, scanTraceSpec]
  | cons f rest ih =>
      intro tasks evs
      rw [scanLoop, if_neg (by simp [hflag])]
      rw [ih]
      rw [scanTraceSpec]
      simp [List.append_assoc, List.length_append, List.length_map]

/-- Witness for the amended C5 theorem on the two-file run environment. -/
theorem C5_scan_progress_found_and_total_witness :
    (scanLoop envC5 "eng" 2 initState ["d/a.mkv", "d/b.mkv"] [] []).2.2 =
      [] ++ scanTraceSpec envC5.probe "eng" 2 ([] : List ExtractionTask).length
        ["d/a.mkv", "d/b.mkv"] :=
  C5_scan_progress_found_and_total envC5 "eng" 2 initState rfl ["d/a.mkv", "d/b.mkv"] [] []

/-- C6 claim: when the computed target output file already exists and
overwrite is false, the call returns the skip outcome without launching the
conversion tool, incrementing skipped_extractions and nothing else: the
whole call reduces to the skip triple, whose trace holds only the makedirs
effect and the skip log message. -/
theorem C6_existing_output_skipped (env : ExtractEnv) (st : ExtractorState)
    (video_file : String) (stream_index : Option Int)
    (language output_format : String) (output_dir : Option String)
    (fi : FormatInfo)
    (hfmt : lookupFormat output_format = some fi)
    (hex : env.fileExists (output_file_for video_file language fi.extension output_dir) = true) :
    extract_subtitle env st video_file stream_index language output_format output_dir false =
      (false,
       { st with skipped_extractions := st.skipped_extractions + 1 },
       [Ev.makedirs (output_dir.getD (dirname video_file)),
        Ev.logMsg ("SKIPPED: Subtitle file already exists for " ++
                   (splitext (basename video_file)).1 ++ " [" ++ language ++ "]")]) := by
  simp [extract_subtitle, hfmt, hex]

/-- Witness for the C6 theorem at a concrete pre-existing output file. -/
theorem C6_existing_output_skipped_witness :
    extract_subtitle envC6 initState "/videos/Movie.mkv" (some 2) "eng" "SRT" none false =
      (false,
       { initState with skipped_extractions := initState.skipped_extractions + 1 },
       [Ev.makedirs ((none : Option String).getD (dirname "/videos/Movie.mkv")),
        Ev.logMsg ("SKIPPED: Subtitle file already exists for " ++
                   (splitext (basename "/videos/Movie.mkv")).1 ++ " [" ++ "eng" ++ "]")]) :=
  C6_existing_output_skipped envC6 initState "/videos/Movie.mkv" (some 2) "eng" "SRT" none
    ⟨"srt", "srt", "SubRip Text"⟩ (by decide) (by decide)

/-- C7 claim: a probe failure of either kind contributes zero subtitle
streams for the file, logs a message, and the scan continues over the
remaining files: the loop step on a failing file equals the loop on the
remaining files with the task accumulator unchanged. -/
theorem C7_probe_failure_recovered (env : RunEnv) (language : String)
    (numFiles : Nat) (st : ExtractorState) (video_file : String)
    (rest : List String) (tasks : List ExtractionTask) (evs : List Ev)
    (hflag : st.cancel_flag = false)
    (herr : env.probe video_file = ProbeResult.subprocessError ∨
            env.probe video_file = ProbeResult.jsonError) :
    (get_subtitle_streams env.probe video_file).1 = [] ∧
    (∃ msg, Ev.logMsg msg ∈ (get_subtitle_streams env.probe video_file).2) ∧
    scanLoop env language numFiles st (video_file :: rest) tasks evs =
      scanLoop env language numFiles st rest tasks
        (evs ++ (get_subtitle_streams env.probe video_file).2 ++
         [Ev.scanProgress tasks.length numFiles]) := by
  rcases herr with h | h
  · refine ⟨by simp [get_subtitle_streams, h],
      ⟨"ERROR: Failed to get subtitle streams from " ++ basename video_file,
        by simp [get_subtitle_streams, h]⟩, ?_⟩
    rw [scanLoop, if_neg (by simp [hflag])]
    simp [get_subtitle_streams, h]
  · refine ⟨by simp [get_subtitle_streams, h],
      ⟨"ERROR: Failed to parse ffprobe output for " ++ basename video_file,
        by simp [get_subtitle_streams, h]⟩, ?_⟩
    rw [scanLoop, if_neg (by simp [hflag])]
    simp [get_subtitle_streams, h]

/-- Witness for the C7 theorem on the environment whose first probe fails. -/
theorem C7_probe_failure_recovered_witness :
    (get_subtitle_streams envC7.probe "d/a.mkv").1 = [] ∧
    (∃ msg, Ev.logMsg msg ∈ (get_subtitle_streams envC7.probe "d/a.mkv").2) ∧
    scanLoop envC7 "eng" 2 initState ("d/a.mkv" :: ["d/b.mkv"]) [] [] =
      scanLoop envC7 "eng" 2 initState ["d/b.mkv"] []
        ([] ++ (get_subtitle_streams envC7.probe "d/a.mkv").2 ++
         [Ev.scanProgress ([] : List ExtractionTask).length 2]) :=
  C7_probe_failure_recovered envC7 "eng" 2 initState "d/a.mkv" ["d/b.mkv"] [] [] rfl
    (Or.inr (by decide))

/-- C8 claim: the computed output path is the output directory when given,
else the directory of the video, then a slash, then the base name of the
video without its extension, the language tag and the table extension,
dot-separated; stated under the side conditions that make the path join a
plain concatenation. -/
theorem C8_output_path (video_file language output_format : String)
    (fi : FormatInfo) (output_dir : Option String)
    (hfmt : lookupFormat output_format = some fi)
    (hdir : output_dir.getD (dirname video_file) ≠ "")
    (hsl : pyEndsWith (output_dir.getD (dirname video_file)) "/" = false)
    (habs : pyStartsWith ((splitext (basename video_file)).1 ++ "." ++ language ++ "." ++
              fi.extension) "/" = false) :
    output_file_for video_file language fi.extension output_dir =
      output_dir.getD (dirname video_file) ++ "/" ++
      ((splitext (basename video_file)).1 ++ "." ++ language ++ "." ++ fi.extension) := by
  unfold output_file_for joinPath
  rw [habs, hsl]
  simp [hdir]

/-- Witness for the C8 theorem at a concrete video path and the SRT row. -/
theorem C8_output_path_witness :
    output_file_for "/videos/Movie.mkv" "eng" "srt" none =
      (none : Option String).getD (dirname "/videos/Movie.mkv") ++ "/" ++
      ((splitext (basename "/videos/Movie.mkv")).1 ++ "." ++ "eng" ++ "." ++ "srt") :=
  C8_output_path "/videos/Movie.mkv" "eng" "SRT" ⟨"srt", "srt", "SubRip Text"⟩ none
    (by decide) (by decide) (by decide) (by decide)

/-- C9 claim: the makedirs side effect heads the trace of every call,
including calls that fail format validation or skip on a pre-existing
output, and neither of those two paths launches the conversion tool. -/
theorem C9_makedirs_precedes_validation (env : ExtractEnv) (st : ExtractorState)
    (video_file : String) (stream_index : Option Int)
    (language output_format : String) (output_dir : Option String) (overwrite : Bool) :
    (extract_subtitle env st video_file stream_index language output_format output_dir overwrite).2.2.head? =
      some (Ev.makedirs (output_dir.getD (dirname video_file))) ∧
    (lookupFormat output_format = none →
      countFfmpegRuns (extract_subtitle env st video_file stream_index language output_format output_dir overwrite).2.2 = 0) ∧
    (∀ fi, lookupFormat output_format = some fi →
      env.fileExists (output_file_for video_file language fi.extension output_dir) = true →
      countFfmpegRuns (extract_subtitle env st video_file stream_index language output_format output_dir false).2.2 = 0) := by
  refine ⟨?_, ?_, ?_⟩
  · unfold extract_subtitle
    repeat' split
    all_goals try simp
    all_goals (split_ifs <;> simp)
  · intro h
    simp [extract_subtitle, h, countFfmpegRuns, List.countP_cons, isFfmpegEv]
  · intro fi hf hex
    simp [extract_subtitle, hf, hex, countFfmpegRuns, List.countP_cons, isFfmpegEv]

/-- Witness for the C9 theorem: unknown-format call still heads its trace
with makedirs and launches no conversion tool. -/
theorem C9_makedirs_precedes_validation_witness :
    (extract_subtitle envC9 initState "d/a.mkv" (some 2) "eng" "FOO" none false).2.2.head? =
      some (Ev.makedirs ((none : Option String).getD (dirname "d/a.mkv"))) ∧
    countFfmpegRuns (extract_subtitle envC9 initState "d/a.mkv" (some 2) "eng" "FOO" none false).2.2 = 0 := by
  have h := C9_makedirs_precedes_validation envC9 initState "d/a.mkv" (some 2) "eng" "FOO" none false
  exact ⟨h.1, h.2.1 (by decide)⟩

/-- C10 claim: cancel sets the flag; only reset clears it; extraction never
clears it (probing and scanning never touch the state at all, as their types
show); and a run entered with the flag still set observes it at its first
checkpoint, launching no ffprobe or ffmpeg subprocess and processing zero
tasks. -/
theorem C10_cancel_flag_semantics :
    (∀ st : ExtractorState, (cancel st).cancel_flag = true) ∧
    (∀ st : ExtractorState, (reset st).cancel_flag = false) ∧
    (∀ (env : ExtractEnv) (st : ExtractorState) (v : String) (si : Option Int)
       (lang fmt : String) (od : Option String) (ow : Bool),
      st.cancel_flag = true →
      (extract_subtitle env st v si lang fmt od ow).2.1.cancel_flag = true) ∧
    (∀ (env : RunEnv) (dirs : List String) (lang fmt : String) (od : Option String)
       (ow : Bool) (st : ExtractorState),
      st.cancel_flag = true →
      countProbes (run_extraction env dirs lang fmt od ow st).events = 0 ∧
      countFfmpegRuns (run_extraction env dirs lang fmt od ow st).events = 0 ∧
      (run_extraction env dirs lang fmt od ow st).state.processed_streams = st.processed_streams) := by
  refine ⟨fun st => rfl, fun st => rfl, ?_, ?_⟩
  · intro env st v si lang fmt od ow h
    unfold extract_subtitle
    repeat' split
    all_goals try simp_all
    all_goals (split_ifs <;> simp_all)
  · intro env dirs lang fmt od ow st hflag
    simp only [run_extraction]
    split
    · simp [countProbes, countFfmpegRuns, List.countP_cons, isProbeEv, isFfmpegEv]
    · dsimp only
      rw [scanLoop_cancelled env lang _ st hflag]
      simp [countProbes, countFfmpegRuns, List.countP_cons, List.countP_append,
            isProbeEv, isFfmpegEv]

/-- Witness for the C10 theorem: a fresh run entered right after cancel,
without reset, does no work. -/
theorem C10_cancel_flag_semantics_witness :
    countProbes (run_extraction envC10 ["d"] "eng" "SRT" none false (cancel initState)).events = 0 ∧
    countFfmpegRuns (run_extraction envC10 ["d"] "eng" "SRT" none false (cancel initState)).events = 0 ∧
    (run_extraction envC10 ["d"] "eng" "SRT" none false (cancel initState)).state.processed_streams =
      (cancel initState).processed_streams :=
  C10_cancel_flag_semantics.2.2.2 envC10 ["d"] "eng" "SRT" none false (cancel initState) rfl

end SubtitleTool
